import Mathlib

/-!
Shallow embedding of the two scripts of the youtube-analysis-automation
repository: the discovery script (`sch.py`, namespace `Sch`) and the
enrichment script (`test2.py`, namespace `Test2`).  Remote endpoints are
modelled by explicit outcome values (a successful payload or an HTTP error
carrying a status and a quota marker); each loop of the source is translated
into a structurally recursive Lean function over the sequence of outcomes it
would consume.  Python exceptions are modelled with `Except`/`Option`;
machine integers are `Nat`/`Int`.
-/

/-- An HTTP error as the scripts observe it: `e.resp.status` plus whether the
string `quotaExceeded` occurs in `str(e.content)`. -/
structure HttpErr where
  status : Nat
  quotaMarker : Bool
deriving DecidableEq, Repr

/-- The quota classification used at every API call site of `test2.py`:
`e.resp.status in [403, 429] or 'quotaExceeded' in str(e.content)`. -/
def isQuotaError (e : HttpErr) : Bool :=
  e.status == 403 || e.status == 429 || e.quotaMarker

/-- Outcome of one remote API request: a payload, or an `HttpError`. -/
inductive ApiResult (α : Type) where
  | ok : α → ApiResult α
  | httpErr : HttpErr → ApiResult α
deriving DecidableEq, Repr

/-- Test whether `p` is an initial segment of `l` (char lists). -/
def listStartsWith : List Char → List Char → Bool
  | [], _ => true
  | _ :: _, [] => false
  | p :: ps, c :: cs => p == c && listStartsWith ps cs

/-- Fuel-driven worker for `removeOcc`; the fuel is the length of the list,
which bounds the number of steps since each step consumes at least one
character when the pattern is non-empty. -/
def removeOccAux (pat : List Char) : Nat → List Char → List Char
  | 0, l => l
  | _ + 1, [] => []
  | fuel + 1, c :: cs =>
    if pat.length ≠ 0 && listStartsWith pat (c :: cs) then
      removeOccAux pat fuel ((c :: cs).drop pat.length)
    else
      c :: removeOccAux pat fuel cs

/-- Remove every occurrence of `pat` from `l` (Python `str.replace(pat, "")`,
which replaces all occurrences, scanning left to right). -/
def removeOcc (pat l : List Char) : List Char :=
  removeOccAux pat l.length l

/-- Python `str.strip()`: drop whitespace from both ends. -/
def trimWs (l : List Char) : List Char :=
  ((l.dropWhile Char.isWhitespace).reverse.dropWhile Char.isWhitespace).reverse

/-- Maximal digit prefix of a char list, with the remainder. -/
def takeDigits : List Char → List Char × List Char
  | [] => ([], [])
  | c :: cs =>
    if c.isDigit then
      let (ds, r) := takeDigits cs
      (c :: ds, r)
    else ([], c :: cs)

/-- Value of a (non-empty) digit string, most significant digit first. -/
def digitsToNat (ds : List Char) : Nat :=
  ds.foldl (fun acc c => acc * 10 + (c.toNat - '0'.toNat)) 0

/-- Python `int(s)` restricted to the unsigned decimal forms that occur in
this program (API count fields): surrounding whitespace is stripped, and a
non-empty all-digit string parses; anything else raises, modelled as `none`. -/
def parsePyNat (s : String) : Option Nat :=
  let cs := trimWs s.toList
  if cs ≠ [] && cs.all Char.isDigit then some (digitsToNat cs) else none

/-- Python `float(s)` restricted to unsigned decimal literals
(`digits`, `digits.digits`, `.digits`, `digits.`), returned exactly as a
numerator together with a power-of-ten exponent for the denominator.
Other inputs raise `ValueError`, modelled as `none`.  The scripts apply this
to subscriber texts, which are non-negative simple decimals; on every input
the claims mention, exact decimal arithmetic and IEEE-754 double arithmetic
truncate to the same integer. -/
def parseDecimalChars (l : List Char) : Option (Nat × Nat) :=
  let (ip, rest) := takeDigits l
  match rest with
  | [] => if ip = [] then none else some (digitsToNat ip, 0)
  | '.' :: fp =>
    if fp.all Char.isDigit && (ip ≠ [] || fp ≠ []) then
      some (digitsToNat (ip ++ fp), fp.length)
    else none
  | _ => none

/-- Whether `pat` occurs as a contiguous sublist of `l`
(Python `pat in s`). -/
def containsSub (pat : List Char) : List Char → Bool
  | [] => listStartsWith pat []
  | c :: cs => listStartsWith pat (c :: cs) || containsSub pat cs

/-- The suffix after the last occurrence of `pat`, or `none` when `pat` does
not occur (worker for `afterLastSep`). -/
def afterLastSepAux (pat : List Char) : List Char → Option (List Char)
  | [] => none
  | c :: cs =>
    match afterLastSepAux pat cs with
    | some r => some r
    | none =>
      if listStartsWith pat (c :: cs) then some ((c :: cs).drop pat.length)
      else none

/-- Python `s.split(pat)[-1]`: the suffix after the last occurrence of
`pat`, or the whole list when `pat` does not occur. -/
def afterLastSep (pat l : List Char) : List Char :=
  (afterLastSepAux pat l).getD l

/-- Falsiness of an optional continuation token, as Python `if not page_token`
sees it: absent, or present but empty. -/
def tokenFalsy : Option String → Bool
  | none => true
  | some t => t == ""

namespace Test2

/-- Component step of `test2.py parse_duration_to_seconds`, body of the matched case: after the
`PT` prefix, the regex `(?:(\d+)H)?(?:(\d+)M)?(?:(\d+)S)?` tries, at the
current position, a maximal digit run followed by the component letter;
if the letter does not follow, the optional group matches nothing and the
position is unchanged (backtracking over the digit run cannot help because
shortening it leaves a digit, not the letter, as the next character). -/
def matchComponent (letter : Char) (l : List Char) : Option Nat × List Char :=
  match takeDigits l with
  | ([], _) => (none, l)
  | (ds, rest) =>
    match rest with
    | [] => (none, l)
    | c :: cs => if c == letter then (some (digitsToNat ds), cs) else (none, l)

/-- Worker for `parse_duration_to_seconds` on the character list. -/
def parseDurationChars (l : List Char) : Nat :=
  match l with
  | c1 :: c2 :: rest =>
    if c1 == 'P' && c2 == 'T' then
      let (h, r1) := matchComponent 'H' rest
      let (m, r2) := matchComponent 'M' r1
      let (s, _) := matchComponent 'S' r2
      h.getD 0 * 3600 + m.getD 0 * 60 + s.getD 0
    else 0
  | _ => 0

/-- Whether the duration regex `PT...` can match at position 0 at all. -/
def startsPTChars (l : List Char) : Bool :=
  match l with
  | c1 :: c2 :: _ => c1 == 'P' && c2 == 'T'
  | _ => false

/-- Source `test2.py parse_duration_to_seconds`: ISO-8601-style `PT#H#M#S` with each
component optional; a failed match yields 0. -/
def parse_duration_to_seconds (s : String) : Nat :=
  parseDurationChars s.toList

/-- Source `test2.py parse_subscribers_to_int`: lower-case, delete `subscribers`,
strip, delete spaces and commas; a trailing `k` multiplies by 1 000 and a
trailing `m` by 1 000 000; `int(float(...))` truncates; a parse failure or
empty input yields `None`. -/
def parse_subscribers_to_int (subs_text : String) : Option Nat :=
  if subs_text = "" then none
  else
    let t0 := subs_text.toList.map Char.toLower
    let t1 := removeOcc ("subscribers".toList) t0
    let t2 := trimWs t1
    let t3 := t2.filter (fun c => !(c == ' ') && !(c == ','))
    match t3.getLast? with
    | some 'k' =>
      (parseDecimalChars t3.dropLast).map (fun p => p.1 * 1000 / 10 ^ p.2)
    | some 'm' =>
      (parseDecimalChars t3.dropLast).map (fun p => p.1 * 1000000 / 10 ^ p.2)
    | _ =>
      (parseDecimalChars t3).map (fun p => p.1 / 10 ^ p.2)

/-- Source `test2.py iso_to_readable`, modelled observationally: the source
reformats a parsable ISO timestamp for display and returns the input
unchanged on a parse failure; in particular it maps `""` to `""`.  The
claims only compare date fields against the default `""`, for which the
identity is exact; the display reformatting of valid timestamps is
presentation-only and abstracted away. -/
def iso_to_readable (s : String) : String := s

/-- Source `test2.py guess_name_surname`: the channel name counts as a personal
name exactly when it splits into two whitespace-separated words. -/
def guess_name_surname (channel_name : String) : String :=
  let parts := (channel_name.split Char.isWhitespace).filter (fun w => w ≠ "")
  if parts.length = 2 then channel_name else ""

/-- Topic normalization step of `test2.py process_channel`: a topic category
URL containing `wikipedia.org/wiki/` is replaced by the path segment after
the last `/wiki/`, with underscores turned into spaces. -/
def cleanTopic (s : String) : String :=
  if containsSub ("wikipedia.org/wiki/".toList) s.toList then
    String.mk ((afterLastSep ("/wiki/".toList) s.toList).map
      (fun c => if c == '_' then ' ' else c))
  else s

/-- Source `test2.py chunked`: split a list into consecutive chunks of `n`
(`range(0, len, n)` with slicing); `n = 0` never occurs in the source
(it is called with 50) and is mapped to no chunks. -/
def chunked : List α → Nat → List (List α)
  | [], _ => []
  | _ :: _, 0 => []
  | x :: xs, n + 1 => (x :: xs.take n) :: chunked (xs.drop n) (n + 1)
termination_by l _ => l.length
decreasing_by
  simp only [List.length_cons, List.length_drop]
  omega

/-- The per-batch body of the shorts count in `process_channel`: a video
whose `duration` value is absent or empty is skipped (`continue`), otherwise
it counts as a short exactly when its parsed duration is at most 60. -/
def shortCountFold (durations : List String) : Nat :=
  durations.foldl
    (fun acc d =>
      if d = "" then acc
      else if parse_duration_to_seconds d ≤ 60 then acc + 1 else acc) 0

/-- One page of `playlistItems().list` as `get_newest_and_oldest...` reads
it: the `videoPublishedAt` of each item (`""` when absent) and the
continuation token. -/
structure PlaylistPage where
  publishedAts : List String
  nextPageToken : Option String
deriving DecidableEq, Repr

/-- The per-page date folding of `get_newest_and_oldest_video_date_in_playlist`:
skip empty timestamps; keep the lexicographic maximum and minimum, seeded
by `""`. -/
def updateDates : List String → String → String → String × String
  | [], newest, oldest => (newest, oldest)
  | v :: rest, newest, oldest =>
    if v = "" then updateDates rest newest oldest
    else
      updateDates rest
        (if newest = "" || newest < v then v else newest)
        (if oldest = "" || v < oldest then v else oldest)

/-- The pagination loop of `get_newest_and_oldest_video_date_in_playlist`
over the successive endpoint responses: a quota-classified `HttpError` is
re-raised; any other `HttpError` breaks with the dates accumulated so far;
an empty page or a falsy continuation token also terminates. -/
def playlistDatesLoop :
    List (ApiResult PlaylistPage) → String → String → Except HttpErr (String × String)
  | [], newest, oldest => .ok (newest, oldest)
  | r :: rest, newest, oldest =>
    match r with
    | .httpErr e => if isQuotaError e then .error e else .ok (newest, oldest)
    | .ok page =>
      if page.publishedAts.isEmpty then .ok (newest, oldest)
      else
        let (n, o) := updateDates page.publishedAts newest oldest
        if tokenFalsy page.nextPageToken then .ok (n, o)
        else playlistDatesLoop rest n o

/-- Source `test2.py get_newest_and_oldest_video_date_in_playlist`: an empty
playlist id returns `("", "")` without any request. -/
def get_newest_and_oldest_video_date_in_playlist
    (playlist_id : String) (pages : List (ApiResult PlaylistPage)) :
    Except HttpErr (String × String) :=
  if playlist_id = "" then .ok ("", "") else playlistDatesLoop pages "" ""

/-- One page of the uploads-playlist id collection loop in
`process_channel`: the video ids of the page and the continuation token. -/
structure IdPage where
  videoIds : List String
  nextPageToken : Option String
deriving DecidableEq, Repr

/-- The id collection loop of `process_channel` (lines 420-447): quota is
re-raised, any other `HttpError` breaks with the ids accumulated so far; an
empty page or a falsy continuation token terminates. -/
def idCollectLoop :
    List (ApiResult IdPage) → List String → Except HttpErr (List String)
  | [], acc => .ok acc
  | r :: rest, acc =>
    match r with
    | .httpErr e => if isQuotaError e then .error e else .ok acc
    | .ok page =>
      if page.videoIds.isEmpty then .ok acc
      else
        let acc2 := acc ++ page.videoIds
        if tokenFalsy page.nextPageToken then .ok acc2
        else idCollectLoop rest acc2

/-- The duration batches loop of `process_channel` (lines 450-477), one
`videos().list` call per chunk of 50 ids: quota is re-raised, any other
`HttpError` skips the batch (`continue`); each response item contributes to
the short count through `shortCountFold`. -/
def durationBatchesLoop :
    List (List String) → List (ApiResult (List String)) → Except HttpErr Nat
  | [], _ => .ok 0
  | _ :: _, [] => .ok 0
  | _ :: cs, r :: rs =>
    match r with
    | .httpErr e =>
      if isQuotaError e then .error e else durationBatchesLoop cs rs
    | .ok durations =>
      match durationBatchesLoop cs rs with
      | .error e => .error e
      | .ok c => .ok (shortCountFold durations + c)

/-- Per-item accumulation of `sum_likes_comments_via_api`: `likeCount` and
`commentCount` default to `"0"`, and an unparsable count is skipped
(`try`/`except: pass`). -/
def sumChunkLikes (items : List (Option String × Option String)) : Nat × Nat :=
  items.foldl
    (fun acc it =>
      ((parsePyNat (it.1.getD "0")).getD 0 + acc.1,
       (parsePyNat (it.2.getD "0")).getD 0 + acc.2))
    (0, 0)

/-- The chunk loop of `test2.py sum_likes_comments_via_api`: one
`videos().list` call per chunk of 50 ids; quota is re-raised, any other
`HttpError` skips the chunk (`continue`). -/
def sumLikesCommentsLoop :
    List (List String) → List (ApiResult (List (Option String × Option String))) →
    Except HttpErr (Nat × Nat)
  | [], _ => .ok (0, 0)
  | _ :: _, [] => .ok (0, 0)
  | _ :: cs, r :: rs =>
    match r with
    | .httpErr e =>
      if isQuotaError e then .error e else sumLikesCommentsLoop cs rs
    | .ok items =>
      match sumLikesCommentsLoop cs rs with
      | .error e => .error e
      | .ok acc =>
        let p := sumChunkLikes items
        .ok (p.1 + acc.1, p.2 + acc.2)

/-- The single item of the `channels().list` response that
`process_channel` reads (snippet, topicDetails, statistics,
contentDetails.relatedPlaylists.uploads); `viewCount` is carried as the
already-parsed optional count. -/
structure ChannelApiData where
  publishedAt : String
  country : String
  topicCategories : List String
  viewCount : Option Nat
  uploadsPlaylist : String
deriving DecidableEq, Repr

/-- What the page-extraction (Selenium) stage of `process_channel` finds on
the channel pages; every element is optional and its absence leaves the
corresponding profile field at its default. -/
structure SeleniumPage where
  channelName : Option String
  subsText : Option String
  aboutEmails : List String
  cityCountry : Option String
  followingCount : Nat
deriving DecidableEq, Repr

/-- The `data` dictionary of `test2.py process_channel` (the fields the
claims observe), plus the control-flow observation `pageExtractionRan`
recording that execution reached the page-extraction stage (source line
503). -/
structure ChannelProfile where
  channel_id : String := ""
  channel_name : String := ""
  first_last_name : String := ""
  city_country : String := ""
  email : String := ""
  num_subscribers : Option Nat := none
  total_videos : Nat := 0
  num_videos : Int := 0
  num_shorts : Nat := 0
  total_views : Option Nat := none
  channel_creation_date_api : String := ""
  channel_country_api : String := ""
  channel_topics_api : String := ""
  first_video_published_api : String := ""
  last_video_published_api : String := ""
  num_following_channels : Nat := 0
  estimated_likes : Nat := 0
  estimated_comments : Nat := 0
  pageExtractionRan : Bool := false
deriving DecidableEq, Repr

/-- The page-extraction stage of `process_channel` (source lines 503-583):
each extraction is independently optional, and the whole stage sits under a
broad exception handler, so it always completes and returns the (partially)
updated record. -/
def pageExtraction (sel : SeleniumPage) (d : ChannelProfile) : ChannelProfile :=
  let d1 :=
    match sel.channelName with
    | none => { d with pageExtractionRan := true }
    | some nm =>
      { d with pageExtractionRan := true, channel_name := nm,
               first_last_name := guess_name_surname nm }
  let d2 :=
    match sel.subsText with
    | none => d1
    | some t => { d1 with num_subscribers := parse_subscribers_to_int t }
  let d3 :=
    match sel.aboutEmails with
    | [] => d2
    | em :: _ => { d2 with email := em }
  let d4 :=
    match sel.cityCountry with
    | none => d3
    | some cc => { d3 with city_country := cc }
  { d4 with num_following_channels := sel.followingCount }

/-- The outcomes of every remote interaction one `process_channel` call
would perform, in program order: the Selenium channel-id resolution, the
`channels().list` call, the successive pages of the two playlist loops, the
responses of the duration batches and of the like/comment chunks, and the
page content seen by the page-extraction stage. -/
structure ProcessChannelEnv where
  resolvedChannelId : String
  channelFetch : ApiResult (List ChannelApiData)
  datePages : List (ApiResult PlaylistPage)
  idPages : List (ApiResult IdPage)
  durationResponses : List (ApiResult (List String))
  likesResponses : List (ApiResult (List (Option String × Option String)))
  selenium : SeleniumPage

/-- Source `test2.py process_channel`.  The API section is wrapped in
`try ... except HttpError: raise`, so a quota error raised by any sub-stage
propagates out; a non-quota `HttpError` of the initial channel fetch does
`return data`, skipping everything that follows — including the
page-extraction stage; the likes/comments sub-stage wraps its helper in
`try ... except HttpError: pass`, swallowing even a quota error. -/
def process_channel (env : ProcessChannelEnv) : Except HttpErr ChannelProfile :=
  let d0 : ChannelProfile := { channel_id := env.resolvedChannelId }
  if env.resolvedChannelId = "" then
    .ok (pageExtraction env.selenium d0)
  else
    match env.channelFetch with
    | .httpErr e => if isQuotaError e then .error e else .ok d0
    | .ok chItems =>
      match chItems with
      | [] => .ok (pageExtraction env.selenium d0)
      | cd :: _ =>
        let d1 := { d0 with
          channel_creation_date_api := iso_to_readable cd.publishedAt,
          channel_country_api := cd.country,
          channel_topics_api :=
            String.intercalate ", " (cd.topicCategories.map cleanTopic),
          total_views := cd.viewCount }
        match get_newest_and_oldest_video_date_in_playlist
            cd.uploadsPlaylist env.datePages with
        | .error e => .error e
        | .ok dates =>
          let d2 := { d1 with
            last_video_published_api := iso_to_readable dates.1,
            first_video_published_api := iso_to_readable dates.2 }
          match idCollectLoop env.idPages [] with
          | .error e => .error e
          | .ok allIds =>
            match durationBatchesLoop (chunked allIds 50) env.durationResponses with
            | .error e => .error e
            | .ok shortCount =>
              let d3 := { d2 with
                total_videos := allIds.length,
                num_shorts := shortCount,
                num_videos := (allIds.length : Int) - (shortCount : Int) }
              let d4 :=
                if allIds.isEmpty then d3
                else
                  match sumLikesCommentsLoop (chunked allIds 50) env.likesResponses with
                  | .error _ => d3
                  | .ok lc =>
                    { d3 with estimated_likes := lc.1, estimated_comments := lc.2 }
              .ok (pageExtraction env.selenium d4)

/-- Whether an `Except` outcome is a normal return. -/
def isOkE : Except HttpErr ChannelProfile → Bool
  | .ok _ => true
  | .error _ => false

/-- Whether a `process_channel` outcome reached the page-extraction stage. -/
def pageExtractionObserved : Except HttpErr ChannelProfile → Bool
  | .ok p => p.pageExtractionRan
  | .error _ => false

/-- The branch conditions of `test2.py main` that decide its early exits
(source lines 590-629). -/
structure MainEnv where
  inputExists : Bool
  inputHasHandleColumn : Bool
  outputExists : Bool
  outputHasHandleColumn : Bool
deriving DecidableEq, Repr

/-- Session accounting for one `test2.py main` run prefix. -/
structure MainOutcome where
  sessionAcquired : Bool
  sessionReleased : Bool
deriving DecidableEq, Repr

/-- The rendering-session lifecycle of `test2.py main`: the driver is
acquired first (line 591); the missing-input-file return (line 595) and the
missing-input-column return (line 607) leave it unreleased; the
missing-output-column returns (lines 620-629) quit it explicitly; every
later path releases it through `try ... finally: driver.quit()`. -/
def test2_main_sessions (env : MainEnv) : MainOutcome :=
  if !env.inputExists then ⟨true, false⟩
  else if !env.inputHasHandleColumn then ⟨true, false⟩
  else if env.outputExists && !env.outputHasHandleColumn then ⟨true, true⟩
  else ⟨true, true⟩

end Test2

namespace Sch

/-- Outcome of one attempt of a remote call as
`sch.py youtube_api_call_with_retries` classifies it: success; an
`HttpError` (carrying status and quota marker); one of the listed
connection-level errors (`ConnectionAbortedError`, `OSError`,
`ProtocolError`, requests `ConnectionError`); or any other exception
(the final `except Exception` arm). -/
inductive CallOutcome (α : Type) where
  | success : α → CallOutcome α
  | httpError : HttpErr → CallOutcome α
  | connError : CallOutcome α
  | unexpected : CallOutcome α

/-- The attempt loop of `youtube_api_call_with_retries`, starting at
`attempt` with the given number of remaining attempts.  The second
component of the result is the index of the last attempt issued, i.e. the
number of calls made.  `HttpError` — quota-classified or not — and
connection errors are retried until the ceiling, then the sentinel `none`
is returned; an unexpected error returns the sentinel at once.  The
function never re-raises. -/
def retryFrom (outcomes : Nat → CallOutcome α) : Nat → Nat → Option α × Nat
  | attempt, 0 => (none, attempt - 1)
  | attempt, remaining + 1 =>
    match outcomes attempt with
    | .success v => (some v, attempt)
    | .httpError _ =>
      if remaining = 0 then (none, attempt)
      else retryFrom outcomes (attempt + 1) remaining
    | .connError =>
      if remaining = 0 then (none, attempt)
      else retryFrom outcomes (attempt + 1) remaining
    | .unexpected => (none, attempt)

/-- Source `sch.py youtube_api_call_with_retries` over the outcome of each
successive attempt; the source default for `max_retries` is 3. -/
def youtube_api_call_with_retries
    (outcomes : Nat → CallOutcome α) (max_retries : Nat) : Option α × Nat :=
  retryFrom outcomes 1 max_retries

/-- The request `sch.py main` builds for each search page (the fields the
claims observe). -/
structure SearchRequest where
  maxResults : Nat
  order : String
  regionCode : String
  q : String
  pageToken : Option String
deriving DecidableEq, Repr

/-- Request `youtube.search().list(...)` as built in `sch.py main`: page size 50,
most-recent-first order, region `FR`. -/
def search_request (q : String) (pageToken : Option String) : SearchRequest :=
  { maxResults := 50, order := "date", regionCode := "FR",
    q := q, pageToken := pageToken }

/-- One page of the search response as `sch.py main` reads it. -/
structure SearchPage where
  items : List String
  nextPageToken : Option String
deriving DecidableEq, Repr

/-- The per-query pagination loop of `sch.py main` over the successive
responses of the retried search call, returning the total number of
candidate items fetched and the number of requests issued.  The loop breaks
when the retried call returns the sentinel, when a page has no items, and —
after counting the page — when the page has a falsy continuation token. -/
def searchLoop : List (Option SearchPage) → Nat × Nat
  | [] => (0, 0)
  | none :: _ => (0, 1)
  | some p :: rest =>
    if p.items.isEmpty then (0, 1)
    else if tokenFalsy p.nextPageToken then (p.items.length, 1)
    else
      let r := searchLoop rest
      (p.items.length + r.1, r.2 + 1)

/-- One item of the `channels().list` response in `sch.py main`:
`statistics.subscriberCount` as an optional wire string. -/
structure ChannelStatsItem where
  subscriberCount : Option String
deriving DecidableEq, Repr

/-- The subscriber count `sch.py main` derives:
`stats.get("subscriberCount", "0")`, then `int(...)` with
`except: subs_count = 0`. -/
def subsCountOf (f : Option String) : Nat :=
  (parsePyNat (f.getD "0")).getD 0

/-- Falsiness of a resolved handle, as `if not handle` sees it. -/
def handleFalsy : Option String → Bool
  | none => true
  | some h => h == ""

/-- Everything outside the script that determines how `sch.py main`
handles one candidate video: whether its key is already in the processed
table, the language classification of title+description, the outcome of the
retried `channels().list` call (`none` = sentinel after retries), the
Selenium handle resolution, whether the handle is already a row of the
Excel roster, and whether saving the roster raises `PermissionError`. -/
structure CandidateEnv where
  alreadyProcessed : Bool
  langDetected : String
  channelsResp : Option (List ChannelStatsItem)
  handleResult : Option String
  handleAlreadyInExcel : Bool
  excelSaveRaisesPermission : Bool

/-- The terminal disposition of one candidate in `sch.py main`. -/
inductive Disposition where
  | alreadyInDb
  | langFiltered
  | channelLookupFailed
  | channelNotFound
  | subsFiltered
  | handleFailed
  | duplicateHandle
  | seedAdded
deriving DecidableEq, Repr

/-- Observable effects of handling one candidate in `sch.py main`:
its disposition, whether its key was inserted into `processed_videos`,
whether Selenium handle resolution was invoked, whether a seed row was
appended to the in-memory roster, whether the roster file was saved, and
whether any exception escaped the candidate's handling. -/
structure CandidateResult where
  disposition : Disposition
  keyInserted : Bool
  reachedHandleResolution : Bool
  seedRowAppended : Bool
  excelSaved : Bool
  errorPropagated : Bool
deriving DecidableEq, Repr

/-- The per-candidate body of `sch.py main` (source lines 254-343), in
source order: processed-table check; language gate (`!= "fr"`); retried
`channels().list` (sentinel → skip); empty `items` → skip; audience gate
(`subs_count >= 50000` → skip); Selenium handle resolution (falsy → skip);
Excel dedup by handle; append + save (a `PermissionError` from the save is
caught and logged); finally the key is inserted and committed on every
path that was not an early `continue` for an already-processed video. -/
def processCandidate (env : CandidateEnv) : CandidateResult :=
  if env.alreadyProcessed then
    ⟨.alreadyInDb, false, false, false, false, false⟩
  else if env.langDetected ≠ "fr" then
    ⟨.langFiltered, true, false, false, false, false⟩
  else
    match env.channelsResp with
    | none => ⟨.channelLookupFailed, true, false, false, false, false⟩
    | some items =>
      match items with
      | [] => ⟨.channelNotFound, true, false, false, false, false⟩
      | it :: _ =>
        if 50000 ≤ subsCountOf it.subscriberCount then
          ⟨.subsFiltered, true, false, false, false, false⟩
        else if handleFalsy env.handleResult then
          ⟨.handleFailed, true, true, false, false, false⟩
        else if env.handleAlreadyInExcel then
          ⟨.duplicateHandle, true, true, false, false, false⟩
        else
          ⟨.seedAdded, true, true, true, !env.excelSaveRaisesPermission, false⟩

end Sch

/-- A channel item whose uploads playlist is non-empty, so that every API
sub-stage of `process_channel` actually runs; all display fields empty. -/
def cdUploads : Test2.ChannelApiData :=
  ⟨"", "", [], none, "PLuploads"⟩

/-- A channel page on which no optional element is found. -/
def selNone : Test2.SeleniumPage :=
  ⟨none, none, [], none, 0⟩

/-- A `process_channel` run whose very first API call — the
`channels().list` fetch — fails with `e`; no later endpoint is consulted. -/
def envFetchErr (e : HttpErr) : Test2.ProcessChannelEnv :=
  ⟨"UC1", .httpErr e, [], [], [], [], selNone⟩

/-- A run where the channel fetch succeeds and the first page of the
upload-dates loop fails with `e`. -/
def envDatesErr (e : HttpErr) : Test2.ProcessChannelEnv :=
  ⟨"UC1", .ok [cdUploads], [.httpErr e], [], [], [], selNone⟩

/-- A run where the upload-dates loop terminates on an empty page and the
first page of the id-collection loop fails with `e`. -/
def envIdsErr (e : HttpErr) : Test2.ProcessChannelEnv :=
  ⟨"UC1", .ok [cdUploads], [.ok ⟨[], none⟩], [.httpErr e], [], [], selNone⟩

/-- A run that collects one video id and whose single duration batch fails
with `e`. -/
def envDurationsErr (e : HttpErr) : Test2.ProcessChannelEnv :=
  ⟨"UC1", .ok [cdUploads], [.ok ⟨[], none⟩], [.ok ⟨["v1"], none⟩],
   [.httpErr e], [], selNone⟩

/-- A run that collects one video id, counts its durations successfully,
and whose single like/comment chunk fails with `e`. -/
def envLikesErr (e : HttpErr) : Test2.ProcessChannelEnv :=
  ⟨"UC1", .ok [cdUploads], [.ok ⟨[], none⟩], [.ok ⟨["v1"], none⟩],
   [.ok []], [.httpErr e], selNone⟩

/-- A run in which the dates loop fails with `e1`, the id loop succeeds
with one id, the duration batch fails with `e2` and the like/comment chunk
fails with `e3`. -/
def envMixedErr (e1 e2 e3 : HttpErr) : Test2.ProcessChannelEnv :=
  ⟨"UC1", .ok [cdUploads], [.httpErr e1], [.ok ⟨["v1"], none⟩],
   [.httpErr e2], [.httpErr e3], selNone⟩

/-- A candidate in `sch.py main` that passes the language gate and whose
channel statistics carry the given `subscriberCount` field; handle
resolution succeeds and the handle is new. -/
def audienceEnv (f : Option String) : Sch.CandidateEnv :=
  ⟨false, "fr", some [⟨f⟩], some "@handle", false, false⟩

/-! Helper lemmas shared by the claim theorems. -/

/-- Joining an empty topic list yields the empty string. -/
theorem intercalate_comma_nil : String.intercalate ", " ([] : List String) = "" := rfl

/-- A duration string whose first two characters are not `PT` fails the
regex match, so the parser yields 0. -/
theorem parseDurationChars_eq_zero (l : List Char)
    (h : Test2.startsPTChars l = false) : Test2.parseDurationChars l = 0 := by
  cases l with
  | nil => rfl
  | cons c1 t =>
    cases t with
    | nil => rfl
    | cons c2 rest =>
      have h2 : (c1 == 'P' && c2 == 'T') = false := h
      unfold Test2.parseDurationChars
      simp [h2]

/-- The page-extraction stage never writes `total_videos`. -/
theorem pageExtraction_total_videos (sel : Test2.SeleniumPage)
    (d : Test2.ChannelProfile) :
    (Test2.pageExtraction sel d).total_videos = d.total_videos := by
  unfold Test2.pageExtraction
  rcases sel with ⟨cn, st, ae, cc, fc⟩
  cases cn <;> cases st <;> cases ae <;> cases cc <;> rfl

/-- The page-extraction stage never writes `num_shorts`. -/
theorem pageExtraction_num_shorts (sel : Test2.SeleniumPage)
    (d : Test2.ChannelProfile) :
    (Test2.pageExtraction sel d).num_shorts = d.num_shorts := by
  unfold Test2.pageExtraction
  rcases sel with ⟨cn, st, ae, cc, fc⟩
  cases cn <;> cases st <;> cases ae <;> cases cc <;> rfl

/-- The page-extraction stage never writes `num_videos`. -/
theorem pageExtraction_num_videos (sel : Test2.SeleniumPage)
    (d : Test2.ChannelProfile) :
    (Test2.pageExtraction sel d).num_videos = d.num_videos := by
  unfold Test2.pageExtraction
  rcases sel with ⟨cn, st, ae, cc, fc⟩
  cases cn <;> cases st <;> cases ae <;> cases cc <;> rfl

/-- The page-extraction stage preserves the count relation
`num_videos = total_videos - num_shorts`. -/
theorem pageExtraction_counts_rel (sel : Test2.SeleniumPage)
    (d : Test2.ChannelProfile)
    (hd : d.num_videos = (d.total_videos : Int) - (d.num_shorts : Int)) :
    (Test2.pageExtraction sel d).num_videos =
      ((Test2.pageExtraction sel d).total_videos : Int) -
      ((Test2.pageExtraction sel d).num_shorts : Int) := by
  rw [pageExtraction_total_videos, pageExtraction_num_shorts,
    pageExtraction_num_videos]
  exact hd

/-- Every profile that `process_channel` returns normally satisfies
`num_videos = total_videos - num_shorts` (source line 485). -/
theorem process_channel_counts (env : Test2.ProcessChannelEnv)
    (p : Test2.ChannelProfile) (h : Test2.process_channel env = .ok p) :
    p.num_videos = (p.total_videos : Int) - (p.num_shorts : Int) := by
  unfold Test2.process_channel at h
  repeat' split at h
  all_goals
    first
    | (simp only [Except.ok.injEq] at h
       subst h
       first
       | exact pageExtraction_counts_rel _ _ rfl
       | exact pageExtraction_counts_rel _ _ (by decide)
       | decide
       | rfl)
    | simp at h

/-! Claim theorems. -/

/-- C1 counterexample: the discovery script's generic retry combinator
(`sch.py youtube_api_call_with_retries`) treats a quota-classified
`HttpError` (status 403 with quota marker) like any transient `HttpError`:
it retries it — three attempts are issued — and then returns the sentinel
`None` instead of re-raising, contradicting the claim that a
quota-classified failure is never retried and never swallowed. -/
theorem C1_quota_error_retried_and_swallowed :
    isQuotaError ⟨403, true⟩ = true ∧
    Sch.youtube_api_call_with_retries
      (fun _ => Sch.CallOutcome.httpError (α := Nat) ⟨403, true⟩) 3 =
      (none, 3) :=
  ⟨rfl, rfl⟩

/-- C1 (amended): in the enrichment aggregator a quota-classified HTTP
failure at a direct API call site — the channel fetch, the upload-dates
paging, the upload-id paging, or a duration batch — is re-raised unretried
through every enclosing stage, so `process_channel` propagates the error
(halting the run in `main`); but the likes/comments sub-stage catches the
quota error re-raised by its helper and continues to page extraction with
the engagement fields left at their defaults, and the discovery script's
retry combinator retries quota-classified `HttpError`s and returns the
sentinel on exhaustion. -/
theorem C1_amended_quota_propagation (e : HttpErr)
    (hq : isQuotaError e = true) :
    Test2.process_channel (envFetchErr e) = .error e ∧
    Test2.process_channel (envDatesErr e) = .error e ∧
    Test2.process_channel (envIdsErr e) = .error e ∧
    Test2.process_channel (envDurationsErr e) = .error e ∧
    Test2.process_channel (envLikesErr e) =
      .ok { channel_id := "UC1", total_videos := 1, num_videos := 1,
            pageExtractionRan := true } := by
  refine ⟨?_, ?_, ?_, ?_, ?_⟩ <;>
    simp [Test2.process_channel, envFetchErr, envDatesErr, envIdsErr,
      envDurationsErr, envLikesErr, cdUploads, selNone, hq,
      Test2.get_newest_and_oldest_video_date_in_playlist,
      Test2.playlistDatesLoop, Test2.idCollectLoop, Test2.chunked,
      Test2.durationBatchesLoop, Test2.sumLikesCommentsLoop,
      Test2.pageExtraction, Test2.shortCountFold, Test2.iso_to_readable,
      tokenFalsy, intercalate_comma_nil]

/-- C1 witness: the amended propagation theorem applied to the concrete
quota error of status 403. -/
theorem C1_amended_quota_propagation_witness :
    isQuotaError ⟨403, false⟩ = true ∧
    Test2.process_channel (envFetchErr ⟨403, false⟩) = .error ⟨403, false⟩ ∧
    Test2.process_channel (envDatesErr ⟨403, false⟩) = .error ⟨403, false⟩ ∧
    Test2.process_channel (envLikesErr ⟨403, false⟩) =
      .ok { channel_id := "UC1", total_videos := 1, num_videos := 1,
            pageExtractionRan := true } :=
  ⟨by decide,
   (C1_amended_quota_propagation ⟨403, false⟩ (by decide)).1,
   (C1_amended_quota_propagation ⟨403, false⟩ (by decide)).2.1,
   (C1_amended_quota_propagation ⟨403, false⟩ (by decide)).2.2.2.2⟩

/-- C2 counterexample: a non-quota HTTP failure (status 500, no quota
marker) of the initial `channels().list` fetch makes `process_channel`
return the record immediately (`return data`, source line 376), so the
page-extraction stage does NOT run — contradicting the claim that after a
non-quota failure of any API sub-stage the page-extraction stage still
runs. -/
theorem C2_nonquota_fetch_skips_page_extraction :
    isQuotaError ⟨500, false⟩ = false ∧
    Test2.process_channel (envFetchErr ⟨500, false⟩) =
      .ok { channel_id := "UC1" } ∧
    Test2.pageExtractionObserved
      (Test2.process_channel (envFetchErr ⟨500, false⟩)) = false :=
  ⟨rfl, rfl, rfl⟩

/-- C2 (amended): a non-quota HTTP failure in any API sub-stage other than
the initial channel fetch aborts only that sub-stage — its fields stay at
their defaults — and processing proceeds to the following stages, including
page extraction; a non-quota failure of the initial channel fetch, however,
returns the profile immediately, skipping every later stage including page
extraction. -/
theorem C2_amended_substage_isolation (e1 e2 e3 : HttpErr)
    (h1 : isQuotaError e1 = false) (h2 : isQuotaError e2 = false) :
    Test2.process_channel (envMixedErr e1 e2 e3) =
      .ok { channel_id := "UC1", total_videos := 1, num_videos := 1,
            pageExtractionRan := true } ∧
    Test2.process_channel (envFetchErr e1) = .ok { channel_id := "UC1" } ∧
    Test2.pageExtractionObserved
      (Test2.process_channel (envFetchErr e1)) = false := by
  refine ⟨?_, ?_, ?_⟩
  · cases h3 : isQuotaError e3 <;>
      simp [Test2.process_channel, envMixedErr, cdUploads,
        selNone, h1, h2, h3, Test2.get_newest_and_oldest_video_date_in_playlist,
        Test2.playlistDatesLoop, Test2.idCollectLoop, Test2.chunked,
        Test2.durationBatchesLoop, Test2.sumLikesCommentsLoop,
        Test2.pageExtraction, Test2.shortCountFold, Test2.iso_to_readable,
        tokenFalsy, intercalate_comma_nil]
  · simp [Test2.process_channel, envFetchErr, h1]
  · simp [Test2.process_channel, envFetchErr, h1,
      Test2.pageExtractionObserved]

/-- C2 witness: the amended theorem at concrete non-quota errors (status
500) with a quota error in the likes chunk. -/
theorem C2_amended_substage_isolation_witness :
    Test2.process_channel (envMixedErr ⟨500, false⟩ ⟨500, false⟩ ⟨403, true⟩) =
      .ok { channel_id := "UC1", total_videos := 1, num_videos := 1,
            pageExtractionRan := true } ∧
    Test2.pageExtractionObserved
      (Test2.process_channel (envFetchErr ⟨500, false⟩)) = false :=
  ⟨(C2_amended_substage_isolation ⟨500, false⟩ ⟨500, false⟩ ⟨403, true⟩
      (by decide) (by decide)).1,
   (C2_amended_substage_isolation ⟨500, false⟩ ⟨500, false⟩ ⟨403, true⟩
      (by decide) (by decide)).2.2⟩

/-- C3: in the discovery loop, every candidate that is not already in the
processed table has its key inserted (`keyInserted = !alreadyProcessed`);
a candidate that fails the language gate, the channel lookup, the
channel-items check, or the audience gate never reaches handle resolution
and never produces a seed row; and a candidate whose handle resolution
fails is still marked processed and produces no seed row.  Hence a key is
recorded exactly when the candidate reached a terminal disposition. -/
theorem C3_processed_key_iff_terminal (env : Sch.CandidateEnv) :
    (Sch.processCandidate env).keyInserted = !env.alreadyProcessed ∧
    ((Sch.processCandidate env).disposition = .langFiltered ∨
     (Sch.processCandidate env).disposition = .channelLookupFailed ∨
     (Sch.processCandidate env).disposition = .channelNotFound ∨
     (Sch.processCandidate env).disposition = .subsFiltered →
      (Sch.processCandidate env).reachedHandleResolution = false ∧
      (Sch.processCandidate env).seedRowAppended = false) ∧
    ((Sch.processCandidate env).disposition = .handleFailed →
      (Sch.processCandidate env).keyInserted = true ∧
      (Sch.processCandidate env).seedRowAppended = false) := by
  unfold Sch.processCandidate
  repeat' split
  all_goals simp_all

/-- C3 witness: a fresh candidate failing the language gate is marked
processed and never reaches handle resolution. -/
theorem C3_processed_key_iff_terminal_witness :
    (Sch.processCandidate ⟨false, "en", none, none, false, false⟩).keyInserted
        = true ∧
    (Sch.processCandidate
        ⟨false, "en", none, none, false, false⟩).reachedHandleResolution
        = false :=
  ⟨(C3_processed_key_iff_terminal ⟨false, "en", none, none, false, false⟩).1,
   ((C3_processed_key_iff_terminal
       ⟨false, "en", none, none, false, false⟩).2.1 (Or.inl rfl)).1⟩

/-- C4: the audience gate filters a candidate exactly when the parsed
subscriber count is at least 50 000 (equivalently, passes exactly when
strictly below 50 000); an absent `subscriberCount` field defaults to the
string `"0"` and an unparsable one to the value 0, both passing; at the
boundary, 49 999 passes and 50 000 fails. -/
theorem C4_audience_gate_boundary (f : Option String) :
    ((Sch.processCandidate (audienceEnv f)).disposition = .subsFiltered ↔
      50000 ≤ Sch.subsCountOf f) ∧
    ((Sch.processCandidate (audienceEnv f)).disposition = .seedAdded ↔
      Sch.subsCountOf f < 50000) ∧
    Sch.subsCountOf none = 0 ∧
    (∀ s : String, parsePyNat s = none → Sch.subsCountOf (some s) = 0) ∧
    (Sch.processCandidate (audienceEnv (some "49999"))).disposition =
      .seedAdded ∧
    (Sch.processCandidate (audienceEnv (some "50000"))).disposition =
      .subsFiltered ∧
    (Sch.processCandidate (audienceEnv (some "12a"))).disposition =
      .seedAdded := by
  refine ⟨?_, ?_, rfl, ?_, by decide, by decide, by decide⟩
  · by_cases h : 50000 ≤ Sch.subsCountOf f <;>
      simp [Sch.processCandidate, audienceEnv, Sch.handleFalsy, h]
  · by_cases h : 50000 ≤ Sch.subsCountOf f
    · have h2 : ¬ Sch.subsCountOf f < 50000 := by omega
      simp [Sch.processCandidate, audienceEnv, Sch.handleFalsy, h, h2]
    · have h2 : Sch.subsCountOf f < 50000 := by omega
      simp [Sch.processCandidate, audienceEnv, Sch.handleFalsy, h, h2]
  · intro s hs
    simp [Sch.subsCountOf, hs]

/-- C4 witness: an unparsable subscriber count maps to 0, and the boundary
value 49 999 passes the gate. -/
theorem C4_audience_gate_boundary_witness :
    Sch.subsCountOf (some "not a number") = 0 ∧
    (Sch.processCandidate (audienceEnv (some "49999"))).disposition =
      .seedAdded :=
  ⟨(C4_audience_gate_boundary none).2.2.2.1 "not a number" rfl,
   (C4_audience_gate_boundary (some "49999")).2.2.2.2.1⟩

/-- C5: every search page request fixes page size 50 and most-recent-first
order; a fabricated 3-page response sequence of 50, 50 and 0 items yields
exactly 100 collected candidates in 3 requests; and the loop terminates
exactly at the sentinel, at an empty page, or at a page whose continuation
token is falsy — in the last case no further request is issued — and
otherwise continues with one more request. -/
theorem C5_pagination_termination (q : String) (tok : Option String)
    (p : Sch.SearchPage) (rest : List (Option Sch.SearchPage)) :
    (Sch.search_request q tok).maxResults = 50 ∧
    (Sch.search_request q tok).order = "date" ∧
    Sch.searchLoop
      [some ⟨List.replicate 50 "v", some "t1"⟩,
       some ⟨List.replicate 50 "v", some "t2"⟩,
       some ⟨[], some "t3"⟩] = (100, 3) ∧
    Sch.searchLoop (none :: rest) = (0, 1) ∧
    (p.items.isEmpty = true → Sch.searchLoop (some p :: rest) = (0, 1)) ∧
    (p.items.isEmpty = false → tokenFalsy p.nextPageToken = true →
      Sch.searchLoop (some p :: rest) = (p.items.length, 1)) ∧
    (p.items.isEmpty = false → tokenFalsy p.nextPageToken = false →
      Sch.searchLoop (some p :: rest) =
        (p.items.length + (Sch.searchLoop rest).1,
         (Sch.searchLoop rest).2 + 1)) := by
  refine ⟨rfl, rfl, by decide, rfl, ?_, ?_, ?_⟩
  · intro h; simp [Sch.searchLoop, h]
  · intro h ht; simp [Sch.searchLoop, h, ht]
  · intro h ht; simp [Sch.searchLoop, h, ht]

/-- C5 witness: a non-empty page without a continuation token yields its
items in a single request, and an empty page terminates with none. -/
theorem C5_pagination_termination_witness :
    Sch.searchLoop [some ⟨["a"], none⟩] = (1, 1) ∧
    Sch.searchLoop [some ⟨[], some "t"⟩] = (0, 1) :=
  ⟨(C5_pagination_termination "comment" none ⟨["a"], none⟩ []).2.2.2.2.2.1
      rfl rfl,
   (C5_pagination_termination "comment" none ⟨[], some "t"⟩ []).2.2.2.2.1
      rfl⟩

/-- C6 counterexample: the duration parser maps `PT1H2M30S` to
1·3600 + 2·60 + 30 = 3750, not 3730 as the claim states. -/
theorem C6_duration_3730_counterexample :
    Test2.parse_duration_to_seconds "PT1H2M30S" = 3750 ∧
    Test2.parse_duration_to_seconds "PT1H2M30S" ≠ 3730 :=
  ⟨rfl, by decide⟩

/-- C6 (amended): the duration parser maps an ISO-8601-style duration with
optional hour/minute/second components to total seconds, each absent
component counting as zero: `PT1H2M30S` yields 3750, `PT59S` yields 59,
`PT4M13S` yields 253; an input on which the anchored regex cannot match
(not starting with `PT`) yields 0, as does a bare `PT`. -/
theorem C6_amended_duration_parsing :
    Test2.parse_duration_to_seconds "PT1H2M30S" = 3750 ∧
    Test2.parse_duration_to_seconds "PT59S" = 59 ∧
    Test2.parse_duration_to_seconds "PT4M13S" = 253 ∧
    Test2.parse_duration_to_seconds "PT" = 0 ∧
    (∀ s : String, Test2.startsPTChars s.toList = false →
      Test2.parse_duration_to_seconds s = 0) :=
  ⟨rfl, rfl, rfl, rfl, fun s h => parseDurationChars_eq_zero s.toList h⟩

/-- C6 witness: the amended theorem's unparsable-input clause at the
concrete input `hello`. -/
theorem C6_amended_duration_parsing_witness :
    Test2.parse_duration_to_seconds "hello" = 0 :=
  C6_amended_duration_parsing.2.2.2.2 "hello" rfl

/-- C7: a video with a present, non-empty duration string contributes to
the short-form count exactly when its parsed duration is at most 60
seconds; at the boundary, a 60-second video (`PT1M`) is counted short-form
and a 61-second one (`PT1M1S`) is not; and every profile `process_channel`
returns satisfies `num_videos = total_videos - num_shorts`. -/
theorem C7_short_form_classification :
    (∀ d : String, d ≠ "" →
      Test2.shortCountFold [d] =
        if Test2.parse_duration_to_seconds d ≤ 60 then 1 else 0) ∧
    Test2.parse_duration_to_seconds "PT1M" = 60 ∧
    Test2.shortCountFold ["PT1M"] = 1 ∧
    Test2.parse_duration_to_seconds "PT1M1S" = 61 ∧
    Test2.shortCountFold ["PT1M1S"] = 0 ∧
    (∀ (env : Test2.ProcessChannelEnv) (p : Test2.ChannelProfile),
      Test2.process_channel env = .ok p →
      p.num_videos = (p.total_videos : Int) - (p.num_shorts : Int)) := by
  refine ⟨?_, rfl, rfl, rfl, rfl, process_channel_counts⟩
  intro d hd
  simp [Test2.shortCountFold, hd]

/-- C7 witness: the classification clause at `PT30S` and the count relation
on the profile returned after a non-quota channel-fetch failure. -/
theorem C7_short_form_classification_witness :
    Test2.shortCountFold ["PT30S"] = 1 ∧
    ({ channel_id := "UC1" } : Test2.ChannelProfile).num_videos =
      (({ channel_id := "UC1" } : Test2.ChannelProfile).total_videos : Int) -
      (({ channel_id := "UC1" } : Test2.ChannelProfile).num_shorts : Int) :=
  ⟨C7_short_form_classification.1 "PT30S" (by decide),
   C7_short_form_classification.2.2.2.2.2 (envFetchErr ⟨500, false⟩)
     { channel_id := "UC1" } rfl⟩

/-- C8: the subscriber-text parser maps `12.3K subscribers` to 12300,
`2M subscribers` to 2000000 and `500 subscribers` to 500; the `k` and `m`
suffixes multiply by 1 000 and 1 000 000 also on other inputs; empty and
unparsable inputs yield `none`. -/
theorem C8_subscriber_text_parsing :
    Test2.parse_subscribers_to_int "12.3K subscribers" = some 12300 ∧
    Test2.parse_subscribers_to_int "2M subscribers" = some 2000000 ∧
    Test2.parse_subscribers_to_int "500 subscribers" = some 500 ∧
    Test2.parse_subscribers_to_int "7k subscribers" = some 7000 ∧
    Test2.parse_subscribers_to_int "1.5m subscribers" = some 1500000 ∧
    Test2.parse_subscribers_to_int "" = none ∧
    Test2.parse_subscribers_to_int "no subscribers" = none :=
  ⟨rfl, rfl, rfl, rfl, rfl, rfl, rfl⟩

/-- C9: the rendering session acquired at the start of `test2.py main` is
NOT released on two early-return exit paths — when the input workbook is
missing (source line 595) and when its header lacks the `channel_handle`
column (source line 607) — while the missing-output-column path and the
normal path do release it.  This contradicts the claim that every exit
path releases the session; the adjacent explicit `driver.quit()` calls and
the `try`/`finally` show release was the intent, so the two leaking
returns are code slips. -/
theorem C9_main_session_leak :
    Test2.test2_main_sessions ⟨false, true, true, true⟩ = ⟨true, false⟩ ∧
    Test2.test2_main_sessions ⟨true, false, true, true⟩ = ⟨true, false⟩ ∧
    Test2.test2_main_sessions ⟨true, true, true, false⟩ = ⟨true, true⟩ ∧
    Test2.test2_main_sessions ⟨true, true, true, true⟩ = ⟨true, true⟩ := by
  decide

/-- C10: handling one candidate never propagates an exception (the
`PermissionError` of the roster save is caught and logged), and whenever a
new seed row is appended the candidate's key is inserted into the
processed set afterwards regardless of whether the save succeeded
(`excelSaved` mirrors the save outcome only). -/
theorem C10_permission_error_key_still_inserted (env : Sch.CandidateEnv) :
    (Sch.processCandidate env).errorPropagated = false ∧
    ((Sch.processCandidate env).disposition = .seedAdded →
      (Sch.processCandidate env).keyInserted = true ∧
      (Sch.processCandidate env).seedRowAppended = true ∧
      (Sch.processCandidate env).excelSaved =
        !env.excelSaveRaisesPermission) := by
  unfold Sch.processCandidate
  repeat' split
  all_goals simp_all

/-- C10 witness: a candidate that adds a seed row while the roster save
raises `PermissionError` still gets its key inserted, and the save is
recorded as failed. -/
theorem C10_permission_error_key_still_inserted_witness :
    (Sch.processCandidate
        ⟨false, "fr", some [⟨some "10"⟩], some "@h", false, true⟩).keyInserted
        = true ∧
    (Sch.processCandidate
        ⟨false, "fr", some [⟨some "10"⟩], some "@h", false, true⟩).excelSaved
        = false :=
  ⟨((C10_permission_error_key_still_inserted
       ⟨false, "fr", some [⟨some "10"⟩], some "@h", false, true⟩).2 rfl).1,
   ((C10_permission_error_key_still_inserted
       ⟨false, "fr", some [⟨some "10"⟩], some "@h", false, true⟩).2 rfl).2.2⟩
